import Mathlib

/-
  Verification development for the ifc-site web client core:
  parameter constraint engine, job orchestrator, per-job polling state
  machine, and the debounced address-search client.  Definitions are
  shallow embeddings of the TypeScript source (GeneratorForm, JobTracker,
  AddressAutocomplete, lib/api); JavaScript numbers are modelled as
  rationals and JS Math.round as floor of x + 1/2.
-/

namespace IfcSite

/-! Policy constants from the LIMITS object of GeneratorForm. -/

namespace LIMITS

def MAX_RADIUS : ℚ := 500

def MIN_RADIUS : ℚ := 50

def MAX_RESOLUTION : ℚ := 15

def MIN_RESOLUTION : ℚ := 2

def MAX_FEATURES : ℕ := 5

end LIMITS

/-- JavaScript Math.round on a rational argument: floor of x + 1/2
(ties round toward positive infinity, as in JS for the positive range
used here). -/
def jsRound (x : ℚ) : ℤ := ⌊x + 1/2⌋

/-- Embedding of getAdaptiveResolution from GeneratorForm: a step
function of the radius, with a linear tail rounded by Math.round. -/
def getAdaptiveResolution (radius : ℚ) : ℚ :=
  if radius ≤ 100 then 2
  else if radius ≤ 200 then 5
  else if radius ≤ 350 then 8
  else ((jsRound (8 + ((radius - 350) / 150) * 7) : ℤ) : ℚ)

/-- The FormState record of GeneratorForm (the generation configuration). -/
structure FormState where
  address : String
  includeTerrain : Bool
  includeSiteSolid : Bool
  includeRoads : Bool
  includeBuildings : Bool
  includeForest : Bool
  includeWater : Bool
  includeRailways : Bool
  includeBridges : Bool
  includeSatellite : Bool
  exportGltf : Bool
  radius : ℚ
  resolution : ℚ
  outputName : String
deriving DecidableEq

/-- The defaultState constant of GeneratorForm. -/
def defaultState : FormState :=
  ⟨"", true, true, false, false, false, false, false, false, false, false,
   200, 5, "site_model.ifc"⟩

/-- Keys of FormState, as used by the generic updateForm. -/
inductive FormKey where
  | address | includeTerrain | includeSiteSolid | includeRoads
  | includeBuildings | includeForest | includeWater | includeRailways
  | includeBridges | includeSatellite | exportGltf | radius | resolution
  | outputName
deriving DecidableEq

/-- A value for a FormState field: boolean, number or string. -/
inductive FormValue where
  | bool (b : Bool)
  | num (n : ℚ)
  | str (s : String)
deriving DecidableEq

/-- Writing one field of the form state (the computed-key spread
update of updateForm).  A value of the wrong shape for the key leaves
the state unchanged; the TypeScript signature rules that case out. -/
def setKey (s : FormState) (k : FormKey) (v : FormValue) : FormState :=
  match k, v with
  | .address, .str a => { s with address := a }
  | .includeTerrain, .bool b => { s with includeTerrain := b }
  | .includeSiteSolid, .bool b => { s with includeSiteSolid := b }
  | .includeRoads, .bool b => { s with includeRoads := b }
  | .includeBuildings, .bool b => { s with includeBuildings := b }
  | .includeForest, .bool b => { s with includeForest := b }
  | .includeWater, .bool b => { s with includeWater := b }
  | .includeRailways, .bool b => { s with includeRailways := b }
  | .includeBridges, .bool b => { s with includeBridges := b }
  | .includeSatellite, .bool b => { s with includeSatellite := b }
  | .exportGltf, .bool b => { s with exportGltf := b }
  | .radius, .num n => { s with radius := n }
  | .resolution, .num n => { s with resolution := n }
  | .outputName, .str a => { s with outputName := a }
  | _, _ => s

/-- Embedding of countActiveFeatures: the number of enabled optional
features (terrain and site solid excluded), computed as in the source
by filtering a literal list of the six flags. -/
def countActiveFeatures (state : FormState) : ℕ :=
  ([state.includeRoads, state.includeBuildings, state.includeForest,
    state.includeWater, state.includeRailways,
    state.includeSatellite].filter (fun b => b)).length

/-- The featureKeys list of updateForm. -/
def featureKeys : List FormKey :=
  [.includeRoads, .includeBuildings, .includeForest, .includeWater,
   .includeRailways, .includeSatellite]

/-- The adaptive-resolution step of updateForm: when the key is radius
and the value is a number, the resolution is rederived from the new
radius, overwriting the previous one; otherwise nothing happens. -/
def applyAdaptiveResolution (u : FormState) (k : FormKey) (v : FormValue) :
    FormState :=
  match k, v with
  | .radius, .num n => { u with resolution := getAdaptiveResolution n }
  | _, _ => u

/-- Embedding of updateForm from GeneratorForm.  Returns the new form
state and the transient warning raised when a feature toggle is
rejected (the setError call in the source); a result of none means the
update was accepted as given. -/
def updateForm (s : FormState) (k : FormKey) (v : FormValue) :
    FormState × Option String :=
  let updated := applyAdaptiveResolution (setKey s k v) k v
  if k ∈ featureKeys ∧ v = FormValue.bool true then
    if LIMITS.MAX_FEATURES < countActiveFeatures updated then
      (setKey updated k (.bool false),
       some ("Maximum " ++ toString LIMITS.MAX_FEATURES ++
             " features at once to ensure fast generation"))
    else (updated, none)
  else (updated, none)

/-- Applying a sequence of updateForm operations in order. -/
def applyOps (s : FormState) : List (FormKey × FormValue) → FormState
  | [] => s
  | (k, v) :: rest => applyOps (updateForm s k v).1 rest

/-- Indicator used to restate countActiveFeatures additively. -/
def cntB (b : Bool) : ℕ := if b then 1 else 0


/-! Job lifecycle model (lib/api and JobTracker). -/

/-- The status union of the JobStatus interface. -/
inductive Status where
  | pending | running | completed | failed | expired
deriving DecidableEq

/-- The JobStatus record returned by getJobStatus after sanitization. -/
structure JobStatus where
  status : Status
  download_url : Option String
  output_name : Option String
  gltf_download_url : Option String
  gltf_output_name : Option String
  texture_download_url : Option String
  texture_output_name : Option String
  error : Option String
deriving DecidableEq

/-- A status report carrying only a status, every other field absent:
the object literal used in the catch branch of JobTracker and a
convenient way to build well-formed reports. -/
def mkReport (st : Status) : JobStatus :=
  ⟨st, none, none, none, none, none, none, none⟩

/-- A JavaScript value as it may appear in an untrusted JSON response
field: null, undefined, a string, a number, a boolean, or something of
object type (objects and arrays, abstracted by a tag). -/
inductive JSValue where
  | vNull
  | vUndefined
  | vStr (s : String)
  | vNum (n : ℚ)
  | vBool (b : Bool)
  | vObj (tag : ℕ)
deriving DecidableEq

/-- Model of the JS String() conversion on a number (exact formatting
is irrelevant to the claims; only that a string is produced). -/
def jsStringOfNum (n : ℚ) : String := toString n

/-- Model of the JS String() conversion on a boolean. -/
def jsStringOfBool (b : Bool) : String := if b then "true" else "false"

/-- Embedding of ensureString from lib/api: null and undefined map to
undefined, strings pass through, object-typed values map to undefined,
and every remaining primitive is converted with String(). -/
def ensureString : JSValue → Option String
  | .vNull => none
  | .vUndefined => none
  | .vStr s => some s
  | .vObj _ => none
  | .vNum n => some (jsStringOfNum n)
  | .vBool b => some (jsStringOfBool b)

/-- The raw JSON payload of a job-status response: the status value and
the seven untrusted string-typed fields. -/
structure RawJobStatus where
  status : Status
  download_url : JSValue
  output_name : JSValue
  gltf_download_url : JSValue
  gltf_output_name : JSValue
  texture_download_url : JSValue
  texture_output_name : JSValue
  error : JSValue
deriving DecidableEq

/-- The response-sanitization step of getJobStatus from lib/api: the
status is passed through and every string-typed field goes through
ensureString. -/
def sanitizeJobStatus (data : RawJobStatus) : JobStatus :=
  ⟨data.status,
   ensureString data.download_url,
   ensureString data.output_name,
   ensureString data.gltf_download_url,
   ensureString data.gltf_output_name,
   ensureString data.texture_download_url,
   ensureString data.texture_output_name,
   ensureString data.error⟩

/-- The error-message construction of getJobStatus for a non-ok HTTP
response: the body is parsed as JSON with a fallback object whose
detail is the string Unknown error; the thrown message is the detail
when truthy and otherwise HTTP followed by the status code.  The
second argument is none when JSON parsing fails, some none when it
succeeds without a usable detail string, and some (some d) when a
detail string d is present. -/
def jobStatusErrorMessage (httpStatus : ℕ) (parsed : Option (Option String)) :
    String :=
  match parsed with
  | none => "Unknown error"
  | some none => "HTTP " ++ toString httpStatus
  | some (some d) => if d = "" then "HTTP " ++ toString httpStatus else d

/-- Whether the first character list is an initial segment of the
second. -/
def startsWithChars : List Char → List Char → Bool
  | [], _ => true
  | _ :: _, [] => false
  | a :: as, b :: bs => a == b && startsWithChars as bs

/-- Whether the first character list occurs contiguously inside the
second. -/
def containsChars : List Char → List Char → Bool
  | pat, [] => startsWithChars pat []
  | pat, c :: cs => startsWithChars pat (c :: cs) || containsChars pat cs

/-- JS string includes: the pattern occurs as a contiguous substring. -/
def jsIncludes (s pat : String) : Bool :=
  containsChars pat.toList s.toList

/-- JS toLowerCase, character by character. -/
def jsToLower (s : String) : String :=
  String.mk (s.toList.map Char.toLower)

/-- The not-found test of the JobTracker catch branch: the message
contains 404, or its lowercase form contains not found. -/
def isNotFoundMessage (msg : String) : Bool :=
  jsIncludes msg ("404") || jsIncludes (jsToLower msg) ("not found")

/-- JS or-with-default on a possibly absent string: the empty string is
falsy, so it also falls back to the default. -/
def jsOrDefault (o : Option String) (d : String) : String :=
  match o with
  | some s => if s = "" then d else s
  | none => d

/-- Callback invocations observable from one poll: the generic
status-change notification, the completion notification, and the error
notification. -/
inductive CallbackEvent where
  | statusChange (st : Status)
  | complete
  | errorCb (msg : String)
deriving DecidableEq

/-- The state held by one JobTracker instance: the last received
status object (none before the first response), the surfaced error
message, and the polling flag. -/
structure PollerState where
  status : Option JobStatus
  error : Option String
  polling : Bool
deriving DecidableEq

/-- Initial JobTracker state: no status yet, no error, polling. -/
def pollerInit : PollerState := ⟨none, none, true⟩

/-- The status currently displayed by JobTracker: pending while no
response has arrived, otherwise the reported status. -/
def displayed (st : PollerState) : Status :=
  match st.status with
  | none => Status.pending
  | some js => js.status

/-- Embedding of one execution of pollStatus from JobTracker: the
outcome of getJobStatus is either a sanitized JobStatus or a thrown
message.  Returns the new tracker state and the callbacks invoked, in
order. -/
def pollStep (st : PollerState) (outcome : Except String JobStatus) :
    PollerState × List CallbackEvent :=
  match outcome with
  | .ok js =>
    let st1 : PollerState := { st with status := some js }
    match js.status with
    | .completed =>
        ({ st1 with polling := false }, [.statusChange js.status, .complete])
    | .failed =>
        ({ st1 with
           polling := false
           error := some (jsOrDefault js.error ("Generation failed")) },
         [.statusChange js.status,
          .errorCb (jsOrDefault js.error ("Generation failed"))])
    | .expired =>
        ({ st1 with polling := false }, [.statusChange js.status])
    | _ => (st1, [.statusChange js.status])
  | .error msg =>
    if isNotFoundMessage msg then
      ({ st with
         error := some ("Job expired or server restarted. Please generate again.")
         status := some (mkReport .expired)
         polling := false },
       [.statusChange .expired])
    else
      ({ st with error := some msg, polling := false }, [])

/-- One scheduled tick: pollStatus runs only while the polling flag is
set; once it is cleared the interval has been torn down and nothing
else ever sets it again, so the state no longer changes. -/
def stepApply (st : PollerState) (o : Except String JobStatus) : PollerState :=
  if st.polling then (pollStep st o).1 else st

/-- Folding a sequence of poll outcomes through the tracker. -/
def runFold (st : PollerState) : List (Except String JobStatus) → PollerState
  | [] => st
  | o :: os => runFold (stepApply st o) os

/-- The displayed statuses observed after each applied poll; ticks
after polling has stopped produce no further observations. -/
def runTrace (st : PollerState) : List (Except String JobStatus) → List Status
  | [] => []
  | o :: os =>
    if st.polling then displayed (stepApply st o) :: runTrace (stepApply st o) os
    else []

/-- Whether a status is terminal (completed, failed or expired). -/
def isTerminal : Status → Bool
  | .completed => true
  | .failed => true
  | .expired => true
  | _ => false

/-- Position of a status along the pending, running, terminal chain. -/
def rank : Status → ℕ
  | .pending => 0
  | .running => 1
  | .completed => 2
  | .failed => 2
  | .expired => 3

/-- One admissible move of the claimed lifecycle chain: from a
non-terminal status, either forward along pending, running,
completed-or-failed (stuttering allowed), or a forced jump to
expired. -/
def stepOK (a b : Status) : Bool :=
  !(isTerminal a) && (decide (b = Status.expired) || decide (rank a ≤ rank b))

/-- The claimed shape of an observed status sequence: every
consecutive pair is an admissible lifecycle move. -/
def okSeqB : List Status → Bool
  | [] => true
  | [_] => true
  | a :: b :: rest => stepOK a b && okSeqB (b :: rest)

/-- Hypothesis on the remote: relative to a starting status, the
statuses it reports never move backwards along the lifecycle (a jump
to expired is allowed at any point); thrown errors are unconstrained. -/
def reportsChainOK (a : Status) : List (Except String JobStatus) → Bool
  | [] => true
  | (Except.ok js) :: os =>
      (decide (js.status = Status.expired) || decide (rank a ≤ rank js.status)) &&
        reportsChainOK js.status os
  | (Except.error _) :: os => reportsChainOK a os

/-! Job orchestrator (handleSubmit of GeneratorForm, createJob of lib/api). -/

/-- The successful payload of a job-creation response. -/
structure JobCreateResponse where
  job_id : String
deriving DecidableEq

/-- An entry of the active-jobs registry (the ActiveJob interface). -/
structure ActiveJob where
  id : String
  location : String
  name : Option String
  status : Status
deriving DecidableEq

/-- The GenerateRequest fields populated by handleSubmit. -/
structure GenerateRequest where
  address : String
  include_terrain : Bool
  include_site_solid : Bool
  include_roads : Bool
  include_buildings : Bool
  include_forest : Bool
  include_water : Bool
  include_railways : Bool
  include_bridges : Bool
  include_satellite_overlay : Bool
  export_gltf : Bool
  radius : ℚ
  resolution : ℚ
  output_name : String
deriving DecidableEq

/-- The request object constructed by handleSubmit from the form
state; note the export flag is the disjunction of the glTF toggle and
the satellite overlay flag. -/
def buildRequest (form : FormState) : GenerateRequest :=
  ⟨form.address,
   form.includeTerrain,
   form.includeSiteSolid,
   form.includeRoads,
   form.includeBuildings,
   form.includeForest,
   form.includeWater,
   form.includeRailways,
   form.includeBridges,
   form.includeSatellite,
   form.exportGltf || form.includeSatellite,
   form.radius,
   form.resolution,
   form.outputName⟩

/-- The registry effect of handleSubmit, given the outcome of the
createJob call: on success a single pending job built from the
response id, the form address and the lucky-pick name is prepended to
the registry; on failure the registry is left alone and the message is
surfaced through setError. -/
def handleSubmit (form : FormState) (luckyName : Option String)
    (jobs : List ActiveJob) (result : Except String JobCreateResponse) :
    List ActiveJob × Option String :=
  match result with
  | .ok r => (⟨r.job_id, form.address, luckyName, Status.pending⟩ :: jobs, none)
  | .error msg => (jobs, some msg)

/-! Address search client (AddressAutocomplete). -/

/-- One address suggestion as produced by searchSwissAddresses. -/
structure AddressSuggestion where
  label : String
  detail : String
  lat : ℚ
  lon : ℚ
deriving DecidableEq

/-- The state of the autocomplete component relevant to the search
path: the visible suggestion list, the loading flag, the pending
debounce timer with its captured query, the issued-but-unanswered
network requests with their captured queries, a fresh-id counter, and
a log of queries in the order their requests were issued. -/
structure AcState where
  suggestions : List AddressSuggestion
  isLoading : Bool
  debounce : Option String
  inflight : List (ℕ × String)
  nextId : ℕ
  issued : List String
deriving DecidableEq

/-- Initial autocomplete state. -/
def acInit : AcState := ⟨[], false, none, [], 0, []⟩

/-- Embedding of handleSearch: clear any pending debounce timer; a
query shorter than two characters empties the suggestion list and
schedules nothing; otherwise set the loading flag and schedule the
query on a fresh debounce timer. -/
def handleSearch (st : AcState) (q : String) : AcState :=
  let st := { st with debounce := none }
  if q.length < 2 then { st with suggestions := [] }
  else { st with isLoading := true, debounce := some q }

/-- The debounce timer fires: the scheduled query is sent to
searchSwissAddresses, i.e. a network request is issued for it; there
is no pending timer afterwards. -/
def fireDebounce (st : AcState) : AcState :=
  match st.debounce with
  | none => st
  | some q =>
    { st with
      debounce := none
      inflight := (st.nextId, q) :: st.inflight
      nextId := st.nextId + 1
      issued := st.issued ++ [q] }

/-- A network response for request i arrives: the continuation after
the await applies setSuggestions with the results of the captured
query unconditionally, with no staleness check, and clears the
loading flag.  resultsOf is the environment: the suggestion list the
network returns for a query. -/
def arriveResponse (resultsOf : String → List AddressSuggestion)
    (st : AcState) (i : ℕ) : AcState :=
  match st.inflight.find? (fun p => p.1 == i) with
  | none => st
  | some p =>
    { st with
      suggestions := resultsOf p.2
      isLoading := false
      inflight := st.inflight.filter (fun q => q.1 != i) }

/-- Events the environment can schedule against the autocomplete. -/
inductive AcEvent where
  | key (q : String)
  | fire
  | respond (i : ℕ)
deriving DecidableEq

/-- One scheduled event. -/
def acStep (resultsOf : String → List AddressSuggestion)
    (st : AcState) : AcEvent → AcState
  | .key q => handleSearch st q
  | .fire => fireDebounce st
  | .respond i => arriveResponse resultsOf st i

/-- Running a schedule of events. -/
def acRun (resultsOf : String → List AddressSuggestion)
    (st : AcState) : List AcEvent → AcState
  | [] => st
  | e :: es => acRun resultsOf (acStep resultsOf st e) es

/-- The schedule of the stale-response race: a first query whose
debounce fires and whose request goes out, a second query issued and
sent afterwards, then the responses arrive out of order, the newer
query first. -/
def staleRaceEvents : List AcEvent :=
  [.key ("Bern"), .fire, .key ("Bundesplatz"), .fire, .respond 1, .respond 0]

/-- A concrete environment: each query resolves to one suggestion
labelled with the query itself. -/
def echoResults (q : String) : List AddressSuggestion := [⟨q, "", 0, 0⟩]

/-- Invariant of the tracker: while polling is on, the displayed
status is not terminal. -/
def goodState (st : PollerState) : Prop :=
  st.polling = true → isTerminal (displayed st) = false

/-! Helper lemmas for the constraint engine. -/

theorem countActiveFeatures_eq (s : FormState) :
    countActiveFeatures s =
      cntB s.includeRoads + cntB s.includeBuildings + cntB s.includeForest +
      cntB s.includeWater + cntB s.includeRailways + cntB s.includeSatellite := by
  obtain ⟨ad, t, ss, ro, bu, fo, wa, ra, br, sa, gl, rad, res, out⟩ := s
  cases ro <;> cases bu <;> cases fo <;> cases wa <;> cases ra <;> cases sa <;> rfl

theorem jsRound_tail_lb {r : ℚ} (h : 350 < r) :
    (8 : ℤ) ≤ jsRound (8 + ((r - 350) / 150) * 7) := by
  unfold jsRound
  rw [Int.le_floor]
  have h0 : (0 : ℚ) ≤ ((r - 350) / 150) * 7 := by
    apply mul_nonneg (div_nonneg (by linarith) (by norm_num)) (by norm_num)
  push_cast
  linarith

theorem jsRound_tail_ub {r : ℚ} (h : r ≤ 500) :
    jsRound (8 + ((r - 350) / 150) * 7) ≤ 15 := by
  unfold jsRound
  have h1 : ((r - 350) / 150) * 7 ≤ 7 := by
    rw [div_mul_eq_mul_div, div_le_iff₀ (by norm_num : (0:ℚ) < 150)]
    linarith
  have h2 : (8 : ℚ) + ((r - 350) / 150) * 7 + 1/2 ≤ 31/2 := by linarith
  calc ⌊(8 : ℚ) + ((r - 350) / 150) * 7 + 1/2⌋ ≤ ⌊(31/2 : ℚ)⌋ :=
        Int.floor_le_floor h2
    _ = 15 := by norm_num

theorem jsRound_tail_mono {r₁ r₂ : ℚ} (h : r₁ ≤ r₂) :
    jsRound (8 + ((r₁ - 350) / 150) * 7) ≤ jsRound (8 + ((r₂ - 350) / 150) * 7) := by
  apply Int.floor_le_floor
  linarith

theorem cntB_le_one (b : Bool) : cntB b ≤ 1 := by cases b <;> simp [cntB]

theorem count_applyAdaptiveResolution (u : FormState) (k : FormKey) (v : FormValue) :
    countActiveFeatures (applyAdaptiveResolution u k v) = countActiveFeatures u := by
  rcases k <;> rcases v <;> rfl

theorem count_setKey_num (s : FormState) (k : FormKey) (n : ℚ) :
    countActiveFeatures (setKey s k (.num n)) = countActiveFeatures s := by
  cases k <;> rfl

theorem count_setKey_str (s : FormState) (k : FormKey) (t : String) :
    countActiveFeatures (setKey s k (.str t)) = countActiveFeatures s := by
  cases k <;> rfl

theorem count_setKey_false_le (s : FormState) (k : FormKey) :
    countActiveFeatures (setKey s k (.bool false)) ≤ countActiveFeatures s := by
  obtain ⟨ad, t, ss, ro, bu, fo, wa, ra, br, sa, gl, rad, res, out⟩ := s
  cases k
  all_goals try exact le_refl _
  all_goals
    simp [countActiveFeatures_eq, setKey, cntB]
    try omega

theorem count_setKey_true_le (s : FormState) (k : FormKey)
    (hk : k ∉ featureKeys) :
    countActiveFeatures (setKey s k (.bool true)) ≤ countActiveFeatures s := by
  cases k
  case includeRoads => exact absurd (by decide) hk
  case includeBuildings => exact absurd (by decide) hk
  case includeForest => exact absurd (by decide) hk
  case includeWater => exact absurd (by decide) hk
  case includeRailways => exact absurd (by decide) hk
  case includeSatellite => exact absurd (by decide) hk
  all_goals exact le_refl _

theorem count_setKey_le (s : FormState) (k : FormKey) (v : FormValue)
    (hcond : ¬(k ∈ featureKeys ∧ v = FormValue.bool true)) :
    countActiveFeatures (setKey s k v) ≤ countActiveFeatures s := by
  rcases v with ⟨b⟩ | ⟨n⟩ | ⟨t2⟩
  · cases b
    · exact count_setKey_false_le s k
    · exact count_setKey_true_le s k (fun hm => hcond ⟨hm, rfl⟩)
  · exact le_of_eq (count_setKey_num s k n)
  · exact le_of_eq (count_setKey_str s k t2)

theorem count_revert_le (s : FormState) (k : FormKey) (hk : k ∈ featureKeys) :
    countActiveFeatures (setKey (setKey s k (.bool true)) k (.bool false)) ≤
      countActiveFeatures s := by
  obtain ⟨ad, t, ss, ro, bu, fo, wa, ra, br, sa, gl, rad, res, out⟩ := s
  fin_cases hk <;>
    (simp [countActiveFeatures_eq, setKey, cntB]
     try omega)

theorem updateForm_count_le (s : FormState) (k : FormKey) (v : FormValue)
    (h : countActiveFeatures s ≤ LIMITS.MAX_FEATURES) :
    countActiveFeatures (updateForm s k v).1 ≤ LIMITS.MAX_FEATURES := by
  by_cases hcond : k ∈ featureKeys ∧ v = FormValue.bool true
  · obtain ⟨hk, hv⟩ := hcond
    subst hv
    have hnr : applyAdaptiveResolution (setKey s k (FormValue.bool true)) k
        (FormValue.bool true) = setKey s k (FormValue.bool true) := by
      fin_cases hk <;> rfl
    simp only [updateForm, hnr]
    split_ifs with hmem hc
    · exact le_trans (count_revert_le s k hk) h
    · exact Nat.le_of_not_lt hc
    · refine absurd ⟨hk, ?_⟩ hmem
      trivial
  · simp only [updateForm]
    rw [if_neg hcond]
    calc countActiveFeatures (applyAdaptiveResolution (setKey s k v) k v)
        = countActiveFeatures (setKey s k v) := count_applyAdaptiveResolution _ _ _
      _ ≤ countActiveFeatures s := count_setKey_le s k v hcond
      _ ≤ LIMITS.MAX_FEATURES := h

theorem updateForm_off_accepted (s : FormState) (k : FormKey) :
    (updateForm s k (.bool false)).2 = none := by
  have hcond : ¬(k ∈ featureKeys ∧ FormValue.bool false = FormValue.bool true) := by
    rintro ⟨-, h⟩
    simp at h
  simp only [updateForm]
  rw [if_neg hcond]

theorem updateForm_reject_eq (s : FormState) (k : FormKey)
    (hk : k ∈ featureKeys) (h : countActiveFeatures s ≤ LIMITS.MAX_FEATURES) :
    (updateForm s k (.bool true)).2.isSome = true →
      (updateForm s k (.bool true)).1 = s := by
  obtain ⟨ad, t, ss, ro, bu, fo, wa, ra, br, sa, gl, rad, res, out⟩ := s
  rw [countActiveFeatures_eq] at h
  fin_cases hk <;>
    simp only [updateForm, applyAdaptiveResolution, setKey, featureKeys,
      LIMITS.MAX_FEATURES] <;>
    split_ifs with hcmem hc <;>
    intro hs <;>
    simp_all [countActiveFeatures_eq, cntB, FormState.mk.injEq]
  all_goals
    rw [← Bool.not_eq_true]
    intro hro
    simp [hro, LIMITS.MAX_FEATURES] at h
    omega

theorem applyOps_count_le (s : FormState) (ops : List (FormKey × FormValue))
    (h : countActiveFeatures s ≤ LIMITS.MAX_FEATURES) :
    countActiveFeatures (applyOps s ops) ≤ LIMITS.MAX_FEATURES := by
  induction ops generalizing s with
  | nil => exact h
  | cons op rest ih =>
    exact ih _ (updateForm_count_le s op.1 op.2 h)

theorem defaultState_count : countActiveFeatures defaultState = 0 := by decide

/-! Poller helper lemmas. -/

theorem pollStep_good (st : PollerState) (o : Except String JobStatus)
    (_h : goodState st) : goodState (pollStep st o).1 := by
  cases o with
  | ok js =>
    cases hjs : js.status <;>
      simp [pollStep, hjs, goodState, displayed, isTerminal]
  | error msg =>
    by_cases hn : isNotFoundMessage msg <;>
      simp [pollStep, hn, goodState, displayed, isTerminal]

theorem stepApply_good (st : PollerState) (o : Except String JobStatus)
    (h : goodState st) : goodState (stepApply st o) := by
  by_cases hp : st.polling
  · simpa [stepApply, hp] using pollStep_good st o h
  · simpa [stepApply, hp] using h

theorem runFold_good (os : List (Except String JobStatus)) :
    ∀ st : PollerState, goodState st → goodState (runFold st os) := by
  induction os with
  | nil => intro st h; exact h
  | cons o rest ih => intro st h; exact ih _ (stepApply_good st o h)

theorem pollerInit_good : goodState pollerInit := by
  intro h
  rfl

theorem stepApply_stopped (st : PollerState) (o : Except String JobStatus)
    (h : st.polling = false) : stepApply st o = st := by
  simp [stepApply, h]

theorem runFold_stopped (os : List (Except String JobStatus))
    (st : PollerState) (h : st.polling = false) : runFold st os = st := by
  induction os with
  | nil => rfl
  | cons o rest ih => simp [runFold, stepApply_stopped st o h, ih]

theorem runFold_append (a b : List (Except String JobStatus)) :
    ∀ st : PollerState, runFold st (a ++ b) = runFold (runFold st a) b := by
  induction a with
  | nil => intro st; rfl
  | cons o rest ih => intro st; simp [runFold, ih]

theorem runTrace_stopped (os : List (Except String JobStatus))
    (st : PollerState) (h : st.polling = false) : runTrace st os = [] := by
  cases os <;> simp [runTrace, h]

theorem traceOK (os : List (Except String JobStatus)) :
    ∀ st : PollerState, goodState st →
      reportsChainOK (displayed st) os = true →
      okSeqB (displayed st :: runTrace st os) = true := by
  induction os with
  | nil =>
    intro st _ _
    rfl
  | cons o rest ih =>
    intro st hg hr
    by_cases hp : st.polling
    · cases o with
      | ok js =>
        have hstep : stepApply st (Except.ok js) = (pollStep st (Except.ok js)).1 := by
          simp [stepApply, hp]
        simp only [reportsChainOK, Bool.and_eq_true] at hr
        obtain ⟨hmove, hrest⟩ := hr
        have hterm : isTerminal (displayed st) = false := hg hp
        cases hjs : js.status
        · rw [hjs] at hmove hrest
          have h1 : stepApply st (Except.ok js) = { st with status := some js } := by
            rw [hstep]; simp [pollStep, hjs]
          have hd : displayed (stepApply st (Except.ok js)) = Status.pending := by
            rw [h1]; simp [displayed, hjs]
          simp only [runTrace, hp, if_true]
          simp only [okSeqB, Bool.and_eq_true]
          refine ⟨?_, ?_⟩
          · rw [hd]
            simp only [stepOK, hterm, Bool.not_false, Bool.true_and]
            exact hmove
          · exact ih (stepApply st (Except.ok js)) (stepApply_good st _ hg)
              (by rw [hd]; exact hrest)
        · rw [hjs] at hmove hrest
          have h1 : stepApply st (Except.ok js) = { st with status := some js } := by
            rw [hstep]; simp [pollStep, hjs]
          have hd : displayed (stepApply st (Except.ok js)) = Status.running := by
            rw [h1]; simp [displayed, hjs]
          simp only [runTrace, hp, if_true]
          simp only [okSeqB, Bool.and_eq_true]
          refine ⟨?_, ?_⟩
          · rw [hd]
            simp only [stepOK, hterm, Bool.not_false, Bool.true_and]
            exact hmove
          · exact ih (stepApply st (Except.ok js)) (stepApply_good st _ hg)
              (by rw [hd]; exact hrest)
        · rw [hjs] at hmove
          have h1 : (stepApply st (Except.ok js)).polling = false := by
            rw [hstep]; simp [pollStep, hjs]
          have hd : displayed (stepApply st (Except.ok js)) = Status.completed := by
            rw [hstep]; simp [pollStep, hjs, displayed]
          simp only [runTrace, hp, if_true]
          rw [runTrace_stopped rest _ h1, hd]
          simp only [okSeqB, Bool.and_true]
          simp only [stepOK, hterm, Bool.not_false, Bool.true_and]
          exact hmove
        · rw [hjs] at hmove
          have h1 : (stepApply st (Except.ok js)).polling = false := by
            rw [hstep]; simp [pollStep, hjs]
          have hd : displayed (stepApply st (Except.ok js)) = Status.failed := by
            rw [hstep]; simp [pollStep, hjs, displayed]
          simp only [runTrace, hp, if_true]
          rw [runTrace_stopped rest _ h1, hd]
          simp only [okSeqB, Bool.and_true]
          simp only [stepOK, hterm, Bool.not_false, Bool.true_and]
          exact hmove
        · have h1 : (stepApply st (Except.ok js)).polling = false := by
            rw [hstep]; simp [pollStep, hjs]
          have hd : displayed (stepApply st (Except.ok js)) = Status.expired := by
            rw [hstep]; simp [pollStep, hjs, displayed]
          simp only [runTrace, hp, if_true]
          rw [runTrace_stopped rest _ h1, hd]
          simp only [okSeqB, Bool.and_true]
          simp [stepOK, hterm]
      | error msg =>
        have hstep : stepApply st (Except.error msg) =
            (pollStep st (Except.error msg)).1 := by
          simp [stepApply, hp]
        have hterm : isTerminal (displayed st) = false := hg hp
        by_cases hn : isNotFoundMessage msg
        · have h1 : (stepApply st (Except.error msg)).polling = false := by
            rw [hstep]; simp [pollStep, hn]
          have hd : displayed (stepApply st (Except.error msg)) = Status.expired := by
            rw [hstep]; simp [pollStep, hn, displayed, mkReport]
          simp only [runTrace, hp, if_true]
          rw [runTrace_stopped rest _ h1, hd]
          simp only [okSeqB, Bool.and_true]
          simp [stepOK, hterm]
        · have h1 : (stepApply st (Except.error msg)).polling = false := by
            rw [hstep]; simp [pollStep, hn]
          have hd : displayed (stepApply st (Except.error msg)) = displayed st := by
            rw [hstep]; simp [pollStep, hn, displayed]
          simp only [runTrace, hp, if_true]
          rw [runTrace_stopped rest _ h1, hd]
          simp only [okSeqB, Bool.and_true]
          simp [stepOK, hterm]
    · simp only [runTrace, hp, if_false]
      rfl

theorem updateForm_exceeds_rejected (s : FormState) (k : FormKey)
    (hk : k ∈ featureKeys)
    (hover : LIMITS.MAX_FEATURES <
      countActiveFeatures (setKey s k (FormValue.bool true))) :
    (updateForm s k (FormValue.bool true)).2.isSome = true := by
  have hnr : applyAdaptiveResolution (setKey s k (FormValue.bool true)) k
      (FormValue.bool true) = setKey s k (FormValue.bool true) := by
    fin_cases hk <;> rfl
  simp only [updateForm, hnr]
  split_ifs with hmem
  · rfl
  · refine absurd ⟨hk, ?_⟩ hmem
    trivial

theorem jsRound_tail_lb_cast {x : ℚ} (hx : 350 < x) :
    (8:ℚ) ≤ ((jsRound (8 + ((x - 350) / 150) * 7) : ℤ) : ℚ) := by
  exact_mod_cast jsRound_tail_lb hx

theorem jsRound_tail_ub_cast {x : ℚ} (hx : x ≤ 500) :
    ((jsRound (8 + ((x - 350) / 150) * 7) : ℤ) : ℚ) ≤ 15 := by
  exact_mod_cast jsRound_tail_ub hx

theorem jsRound_tail_mono_cast {x y : ℚ} (hxy : x ≤ y) :
    ((jsRound (8 + ((x - 350) / 150) * 7) : ℤ) : ℚ) ≤
      ((jsRound (8 + ((y - 350) / 150) * 7) : ℤ) : ℚ) := by
  exact_mod_cast jsRound_tail_mono hxy

theorem getAdaptiveResolution_mono {r₁ r₂ : ℚ} (h : r₁ ≤ r₂) :
    getAdaptiveResolution r₁ ≤ getAdaptiveResolution r₂ := by
  unfold getAdaptiveResolution
  split_ifs <;>
    first
      | (norm_num
         done)
      | linarith
      | (exact jsRound_tail_mono_cast h)
      | (exact le_trans (by norm_num) (jsRound_tail_lb_cast (by linarith)))

theorem getAdaptiveResolution_bounds (r : ℚ) (_h1 : 50 ≤ r) (h2 : r ≤ 500) :
    2 ≤ getAdaptiveResolution r ∧ getAdaptiveResolution r ≤ 15 := by
  unfold getAdaptiveResolution
  split_ifs with a1 a2 a3
  · norm_num
  · norm_num
  · norm_num
  · constructor
    · exact le_trans (by norm_num) (jsRound_tail_lb_cast (by linarith))
    · exact jsRound_tail_ub_cast h2

/-! Claim theorems. -/

/-- Claim C1: the claim requires that only the most recently issued
search query ever reaches the suggestion list.  The code has no
sequence guard: evaluating the autocomplete at the schedule where the
request for Bern is issued, then the request for Bundesplatz is
issued, and the responses arrive newest first, the suggestion list
ends up holding the results of the superseded Bern query even though
Bundesplatz was issued later. -/
theorem C1_stale_response_wins :
    (acRun echoResults acInit staleRaceEvents).issued = ["Bern", "Bundesplatz"] ∧
    (acRun echoResults acInit staleRaceEvents).inflight = [] ∧
    (acRun echoResults acInit staleRaceEvents).suggestions = echoResults ("Bern") ∧
    echoResults ("Bern") ≠ echoResults ("Bundesplatz") := by
  exact ⟨by decide, by decide, by decide, by decide⟩

/-- Claim C2: starting from the default configuration, any sequence of
updateForm operations keeps the number of enabled optional features at
most MAX_FEATURES; a feature toggle-on that would push the count past
the limit is rejected with a warning; a rejected toggle-on leaves the
whole configuration unchanged; and a feature toggle-off is always
accepted (no warning). -/
theorem C2_feature_limit (ops : List (FormKey × FormValue)) (k : FormKey)
    (hk : k ∈ featureKeys) :
    countActiveFeatures (applyOps defaultState ops) ≤ LIMITS.MAX_FEATURES ∧
    (LIMITS.MAX_FEATURES <
        countActiveFeatures
          (setKey (applyOps defaultState ops) k (FormValue.bool true)) →
      (updateForm (applyOps defaultState ops) k (FormValue.bool true)).2.isSome =
        true) ∧
    ((updateForm (applyOps defaultState ops) k (FormValue.bool true)).2.isSome = true →
      (updateForm (applyOps defaultState ops) k (FormValue.bool true)).1 =
        applyOps defaultState ops) ∧
    (updateForm (applyOps defaultState ops) k (FormValue.bool false)).2 = none := by
  have hc := applyOps_count_le defaultState ops (by decide)
  exact ⟨hc, updateForm_exceeds_rejected _ k hk,
    updateForm_reject_eq _ k hk hc, updateForm_off_accepted _ k⟩

/-- Witness for C2: after enabling five optional features from the
default configuration, the sixth toggle-on is rejected with a warning
and changes nothing, and a toggle-off is accepted. -/
theorem C2_feature_limit_witness :
    countActiveFeatures (applyOps defaultState
      [(FormKey.includeRoads, FormValue.bool true),
       (FormKey.includeBuildings, FormValue.bool true),
       (FormKey.includeForest, FormValue.bool true),
       (FormKey.includeWater, FormValue.bool true),
       (FormKey.includeRailways, FormValue.bool true)]) ≤ LIMITS.MAX_FEATURES ∧
    (updateForm (applyOps defaultState
      [(FormKey.includeRoads, FormValue.bool true),
       (FormKey.includeBuildings, FormValue.bool true),
       (FormKey.includeForest, FormValue.bool true),
       (FormKey.includeWater, FormValue.bool true),
       (FormKey.includeRailways, FormValue.bool true)])
      FormKey.includeSatellite (FormValue.bool true)).2.isSome = true ∧
    (updateForm (applyOps defaultState
      [(FormKey.includeRoads, FormValue.bool true),
       (FormKey.includeBuildings, FormValue.bool true),
       (FormKey.includeForest, FormValue.bool true),
       (FormKey.includeWater, FormValue.bool true),
       (FormKey.includeRailways, FormValue.bool true)])
      FormKey.includeSatellite (FormValue.bool true)).1 =
      applyOps defaultState
      [(FormKey.includeRoads, FormValue.bool true),
       (FormKey.includeBuildings, FormValue.bool true),
       (FormKey.includeForest, FormValue.bool true),
       (FormKey.includeWater, FormValue.bool true),
       (FormKey.includeRailways, FormValue.bool true)] ∧
    (updateForm (applyOps defaultState
      [(FormKey.includeRoads, FormValue.bool true),
       (FormKey.includeBuildings, FormValue.bool true),
       (FormKey.includeForest, FormValue.bool true),
       (FormKey.includeWater, FormValue.bool true),
       (FormKey.includeRailways, FormValue.bool true)])
      FormKey.includeSatellite (FormValue.bool false)).2 = none := by
  have h := C2_feature_limit
    [(FormKey.includeRoads, FormValue.bool true),
     (FormKey.includeBuildings, FormValue.bool true),
     (FormKey.includeForest, FormValue.bool true),
     (FormKey.includeWater, FormValue.bool true),
     (FormKey.includeRailways, FormValue.bool true)]
    FormKey.includeSatellite (by decide)
  exact ⟨h.1, by decide, h.2.2.1 (by decide), h.2.2.2⟩

/-- Claim C3: the derived resolution is 2 on radii in 50 to 100, 5 on
100 to 200, 8 on 200 to 350, and 15 at the 500 meter ceiling, and any
radius update through updateForm overwrites the resolution with the
derived value. -/
theorem C3_adaptive_resolution (r : ℚ) (s : FormState) :
    (50 ≤ r → r ≤ 100 → getAdaptiveResolution r = 2) ∧
    (100 < r → r ≤ 200 → getAdaptiveResolution r = 5) ∧
    (200 < r → r ≤ 350 → getAdaptiveResolution r = 8) ∧
    getAdaptiveResolution 500 = 15 ∧
    (updateForm s FormKey.radius (FormValue.num r)).1.resolution =
      getAdaptiveResolution r := by
  refine ⟨?_, ?_, ?_, ?_, ?_⟩
  · intro _ h2
    simp [getAdaptiveResolution, h2]
  · intro h1 h2
    rw [getAdaptiveResolution, if_neg (by linarith), if_pos h2]
  · intro h1 h2
    rw [getAdaptiveResolution, if_neg (by linarith), if_neg (by linarith),
      if_pos h2]
  · norm_num [getAdaptiveResolution, jsRound]
  · have hcond : ¬(FormKey.radius ∈ featureKeys ∧
        FormValue.num r = FormValue.bool true) := by
      rintro ⟨hm, -⟩
      simp [featureKeys] at hm
    simp only [updateForm]
    rw [if_neg hcond]
    rfl

/-- Witness for C3 at radii 75, 150, 300 and 500. -/
theorem C3_adaptive_resolution_witness :
    getAdaptiveResolution 75 = 2 ∧
    getAdaptiveResolution 150 = 5 ∧
    getAdaptiveResolution 300 = 8 ∧
    getAdaptiveResolution 500 = 15 ∧
    (updateForm defaultState FormKey.radius (FormValue.num 500)).1.resolution =
      getAdaptiveResolution 500 := by
  exact ⟨(C3_adaptive_resolution 75 defaultState).1 (by decide) (by decide),
    (C3_adaptive_resolution 150 defaultState).2.1 (by decide) (by decide),
    (C3_adaptive_resolution 300 defaultState).2.2.1 (by decide) (by decide),
    (C3_adaptive_resolution 500 defaultState).2.2.2.1,
    (C3_adaptive_resolution 500 defaultState).2.2.2.2⟩

/-- Claim C4 counterexample: the claim asserts the observed status
sequence of any job is a subsequence of pending, running, then
completed or failed, optionally cut by expired.  If the remote reports
running and then pending, the tracker applies both reports, so the
observed displayed sequence is pending, running, pending, which moves
backwards between non-terminal statuses and is not of the claimed
shape (okSeqB encodes one admissible step of the claimed chain). -/
theorem C4_counterexample :
    runTrace pollerInit
        [Except.ok (mkReport Status.running), Except.ok (mkReport Status.pending)] =
      [Status.running, Status.pending] ∧
    displayed pollerInit = Status.pending ∧
    okSeqB [Status.pending, Status.running, Status.pending] = false := by
  exact ⟨by decide, rfl, by decide⟩

/-- Claim C4 (amended): once polling stops it never restarts, so
outcomes delivered after that point change nothing; whenever the
displayed status is terminal, polling has stopped; and provided the
remote reports statuses in lifecycle order (never moving backwards,
expired allowed anywhere), the observed sequence follows the claimed
chain pending, running, completed or failed, optionally cut by
expired, and never continues past a terminal state. -/
theorem C4_polling_stops_amended (os extra : List (Except String JobStatus)) :
    ((runFold pollerInit os).polling = false →
      runFold pollerInit (os ++ extra) = runFold pollerInit os) ∧
    (isTerminal (displayed (runFold pollerInit os)) = true →
      (runFold pollerInit os).polling = false) ∧
    (reportsChainOK (displayed pollerInit) os = true →
      okSeqB (displayed pollerInit :: runTrace pollerInit os) = true) := by
  refine ⟨?_, ?_, ?_⟩
  · intro h
    rw [runFold_append, runFold_stopped extra _ h]
  · intro hterm
    cases hpol : (runFold pollerInit os).polling
    · rfl
    · have hgood := runFold_good os pollerInit pollerInit_good hpol
      rw [hgood] at hterm
      cases hterm
  · intro hr
    exact traceOK os pollerInit pollerInit_good hr

/-- Witness for C4: a terminal report stops polling, later outcomes
are ignored, and a lifecycle-ordered report sequence yields an
observed sequence of the claimed shape. -/
theorem C4_polling_stops_amended_witness :
    (runFold pollerInit
      [Except.ok (mkReport Status.running),
       Except.ok (mkReport Status.completed)]).polling = false ∧
    runFold pollerInit
        ([Except.ok (mkReport Status.running),
          Except.ok (mkReport Status.completed)] ++
         [Except.ok (mkReport Status.pending)]) =
      runFold pollerInit
        [Except.ok (mkReport Status.running),
         Except.ok (mkReport Status.completed)] ∧
    okSeqB (displayed pollerInit :: runTrace pollerInit
      [Except.ok (mkReport Status.running),
       Except.ok (mkReport Status.completed)]) = true := by
  have h := C4_polling_stops_amended
    [Except.ok (mkReport Status.running), Except.ok (mkReport Status.completed)]
    [Except.ok (mkReport Status.pending)]
  exact ⟨by decide, h.1 (by decide), h.2.2 (by decide)⟩

/-- Claim C5 counterexample: the claim says an HTTP 404 forces the job
to expired.  The catch branch classifies by message content only: an
HTTP 404 response whose body cannot be parsed as JSON is thrown as the
message Unknown error, which contains neither 404 nor not found, so
after a running report followed by that 404 the job stays displayed as
running and never transitions to expired. -/
theorem C5_counterexample :
    jobStatusErrorMessage 404 none = "Unknown error" ∧
    displayed (runFold pollerInit
      [Except.ok (mkReport Status.running),
       Except.error (jobStatusErrorMessage 404 none)]) = Status.running ∧
    displayed (runFold pollerInit
      [Except.ok (mkReport Status.running),
       Except.error (jobStatusErrorMessage 404 none)]) ≠ Status.expired := by
  exact ⟨by decide, by decide, by decide⟩

/-- Claim C5 (amended): a poll error whose message contains 404, or
whose lowercase form contains not found, forces the status to expired
regardless of the previous status, stops polling, surfaces the
regenerate message and fires only the status-change callback (never
the on-error callback); any other poll error stops polling and
surfaces the message without touching the status and without firing
any callback.  An HTTP 404 is classified this way exactly when the
thrown message carries those substrings, e.g. the fallback message
HTTP 404 produced when the 404 body has no usable detail string. -/
theorem C5_not_found_amended (st : PollerState) (msg : String) :
    (isNotFoundMessage msg = true →
      (pollStep st (Except.error msg)).1.status = some (mkReport Status.expired) ∧
      (pollStep st (Except.error msg)).1.polling = false ∧
      (pollStep st (Except.error msg)).1.error =
        some ("Job expired or server restarted. Please generate again.") ∧
      (pollStep st (Except.error msg)).2 =
        [CallbackEvent.statusChange Status.expired]) ∧
    (isNotFoundMessage msg = false →
      (pollStep st (Except.error msg)).1.status = st.status ∧
      (pollStep st (Except.error msg)).1.polling = false ∧
      (pollStep st (Except.error msg)).1.error = some msg ∧
      (pollStep st (Except.error msg)).2 = []) ∧
    isNotFoundMessage (jobStatusErrorMessage 404 (some none)) = true := by
  refine ⟨?_, ?_, by decide⟩
  · intro h
    simp [pollStep, h]
  · intro h
    simp [pollStep, h]

/-- Witness for C5: the fallback message HTTP 404 forces expired with
no on-error callback; the message connection reset is generic. -/
theorem C5_not_found_amended_witness :
    isNotFoundMessage ("HTTP 404") = true ∧
    (pollStep pollerInit (Except.error ("HTTP 404"))).1.status =
      some (mkReport Status.expired) ∧
    (pollStep pollerInit (Except.error ("HTTP 404"))).2 =
      [CallbackEvent.statusChange Status.expired] ∧
    isNotFoundMessage ("connection reset") = false ∧
    (pollStep pollerInit (Except.error ("connection reset"))).1.error =
      some ("connection reset") := by
  have h1 := (C5_not_found_amended pollerInit ("HTTP 404")).1 (by decide)
  have h2 := (C5_not_found_amended pollerInit ("connection reset")).2.1 (by decide)
  exact ⟨by decide, h1.1, h1.2.2.2, by decide, h2.2.2.1⟩

/-- Claim C6: on a successful submission response, handleSubmit
prepends exactly one new pending job built from the response id to the
registry and surfaces no error; on failure the registry is unchanged
and the message is surfaced. -/
theorem C6_create_job (form : FormState) (luckyName : Option String)
    (jobs : List ActiveJob) (resp : JobCreateResponse) (msg : String) :
    handleSubmit form luckyName jobs (Except.ok resp) =
      (⟨resp.job_id, form.address, luckyName, Status.pending⟩ :: jobs, none) ∧
    (handleSubmit form luckyName jobs (Except.ok resp)).1.length =
      jobs.length + 1 ∧
    handleSubmit form luckyName jobs (Except.error msg) = (jobs, some msg) := by
  exact ⟨rfl, by simp [handleSubmit], rfl⟩

/-- Witness for C6 at a concrete submission. -/
theorem C6_create_job_witness :
    handleSubmit defaultState none [] (Except.ok ⟨("job-1")⟩) =
      ([⟨("job-1"), "", none, Status.pending⟩], none) ∧
    handleSubmit defaultState none [] (Except.error ("HTTP 500")) =
      ([], some ("HTTP 500")) := by
  have h := C6_create_job defaultState none [] ⟨("job-1")⟩ ("HTTP 500")
  exact ⟨h.1, h.2.2⟩

/-- Claim C7 counterexample: the claim says out-of-range radius values
are clamped into 50 to 500.  updateForm stores the supplied radius
unchanged: updating the radius to 1000 leaves 1000 in the
configuration, outside the claimed interval. -/
theorem C7_counterexample :
    (updateForm defaultState FormKey.radius (FormValue.num 1000)).1.radius =
      1000 ∧
    ¬((updateForm defaultState FormKey.radius (FormValue.num 1000)).1.radius ≤
      LIMITS.MAX_RADIUS) := by
  exact ⟨by decide, by decide⟩

/-- Claim C7 (amended): updateForm performs no clamping and stores the
supplied radius unchanged; consequently the stored radius lies in the
50 to 500 interval exactly when the supplied value does, which holds
for every value the range slider (min 50, max 500) can supply;
out-of-range programmatic values are stored out of range, not
clamped and not rejected. -/
theorem C7_radius_amended (s : FormState) (r : ℚ) :
    (updateForm s FormKey.radius (FormValue.num r)).1.radius = r ∧
    (LIMITS.MIN_RADIUS ≤ r → r ≤ LIMITS.MAX_RADIUS →
      LIMITS.MIN_RADIUS ≤ (updateForm s FormKey.radius (FormValue.num r)).1.radius ∧
      (updateForm s FormKey.radius (FormValue.num r)).1.radius ≤
        LIMITS.MAX_RADIUS) := by
  have hradius : (updateForm s FormKey.radius (FormValue.num r)).1.radius = r := by
    have hcond : ¬(FormKey.radius ∈ featureKeys ∧
        FormValue.num r = FormValue.bool true) := by
      rintro ⟨hm, -⟩
      simp [featureKeys] at hm
    simp only [updateForm]
    rw [if_neg hcond]
    rfl
  refine ⟨hradius, fun h1 h2 => ⟨?_, ?_⟩⟩
  · rw [hradius]
    exact h1
  · rw [hradius]
    exact h2

/-- Witness for C7 at the in-range radius 120. -/
theorem C7_radius_amended_witness :
    (updateForm defaultState FormKey.radius (FormValue.num 120)).1.radius = 120 ∧
    LIMITS.MIN_RADIUS ≤
      (updateForm defaultState FormKey.radius (FormValue.num 120)).1.radius ∧
    (updateForm defaultState FormKey.radius (FormValue.num 120)).1.radius ≤
      LIMITS.MAX_RADIUS := by
  have h := C7_radius_amended defaultState 120
  have h2 := h.2 (by decide) (by decide)
  exact ⟨h.1, h2.1, h2.2⟩

/-- Claim C8 counterexample: the claim says every non-string non-null
raw value of a string-typed field is coerced to undefined.  ensureString
only does that for object-typed values: a numeric download_url is
converted with String() and survives sanitization as a string. -/
theorem C8_counterexample :
    (sanitizeJobStatus
      ⟨Status.completed, JSValue.vNum 42, JSValue.vNull, JSValue.vNull,
       JSValue.vNull, JSValue.vNull, JSValue.vNull, JSValue.vNull⟩).download_url ≠
      none := by
  decide

/-- Claim C8 (amended): getJobStatus passes every string-typed field
of the response through ensureString, which coerces null, undefined
and object-typed values to undefined and passes strings through, but
converts the remaining primitives (numbers, booleans) to strings with
String() instead of dropping them. -/
theorem C8_ensure_string_amended (d : RawJobStatus) (f : ℕ) (q : ℚ) (b : Bool)
    (s : String) :
    (sanitizeJobStatus d).status = d.status ∧
    (sanitizeJobStatus d).download_url = ensureString d.download_url ∧
    (sanitizeJobStatus d).output_name = ensureString d.output_name ∧
    (sanitizeJobStatus d).gltf_download_url = ensureString d.gltf_download_url ∧
    (sanitizeJobStatus d).gltf_output_name = ensureString d.gltf_output_name ∧
    (sanitizeJobStatus d).texture_download_url =
      ensureString d.texture_download_url ∧
    (sanitizeJobStatus d).texture_output_name =
      ensureString d.texture_output_name ∧
    (sanitizeJobStatus d).error = ensureString d.error ∧
    ensureString (JSValue.vObj f) = none ∧
    ensureString JSValue.vNull = none ∧
    ensureString JSValue.vUndefined = none ∧
    ensureString (JSValue.vStr s) = some s ∧
    (ensureString (JSValue.vNum q)).isSome = true ∧
    (ensureString (JSValue.vBool b)).isSome = true := by
  exact ⟨rfl, rfl, rfl, rfl, rfl, rfl, rfl, rfl, rfl, rfl, rfl, rfl, rfl, rfl⟩

/-- Witness for C8 at concrete values. -/
theorem C8_ensure_string_amended_witness :
    ensureString (JSValue.vObj 0) = none ∧
    (ensureString (JSValue.vNum 42)).isSome = true := by
  have h := C8_ensure_string_amended
    ⟨Status.pending, JSValue.vNull, JSValue.vNull, JSValue.vNull, JSValue.vNull,
     JSValue.vNull, JSValue.vNull, JSValue.vNull⟩ 0 42 true ("x")
  exact ⟨h.2.2.2.2.2.2.2.2.1, h.2.2.2.2.2.2.2.2.2.2.2.2.1⟩

/-- Claim C9: the export_gltf field of the submitted request is the
disjunction of the glTF toggle and the satellite flag, so enabling the
satellite overlay forces glTF export even when the toggle is off. -/
theorem C9_export_gltf (form : FormState) :
    (buildRequest form).export_gltf = (form.exportGltf || form.includeSatellite) ∧
    (form.exportGltf = false → form.includeSatellite = true →
      (buildRequest form).export_gltf = true) := by
  refine ⟨rfl, ?_⟩
  intro h1 h2
  simp [buildRequest, h1, h2]

/-- Witness for C9: satellite on and glTF toggle off still exports. -/
theorem C9_export_gltf_witness :
    (buildRequest { defaultState with includeSatellite := true }).export_gltf =
      true := by
  exact (C9_export_gltf { defaultState with includeSatellite := true }).2 rfl rfl

/-- Claim C10: the derived resolution is monotone non-decreasing in
the radius over the 50 to 500 interval, and stays within the
MIN_RESOLUTION to MAX_RESOLUTION interval there. -/
theorem C10_resolution_monotone_bounded (r₁ r₂ r : ℚ)
    (_h1 : LIMITS.MIN_RADIUS ≤ r₁) (h12 : r₁ ≤ r₂) (_h2 : r₂ ≤ LIMITS.MAX_RADIUS)
    (hra : LIMITS.MIN_RADIUS ≤ r) (hrb : r ≤ LIMITS.MAX_RADIUS) :
    getAdaptiveResolution r₁ ≤ getAdaptiveResolution r₂ ∧
    LIMITS.MIN_RESOLUTION ≤ getAdaptiveResolution r ∧
    getAdaptiveResolution r ≤ LIMITS.MAX_RESOLUTION := by
  have hb := getAdaptiveResolution_bounds r hra hrb
  exact ⟨getAdaptiveResolution_mono h12, hb.1, hb.2⟩

/-- Witness for C10 at radii 80 and 400. -/
theorem C10_resolution_monotone_bounded_witness :
    getAdaptiveResolution 80 ≤ getAdaptiveResolution 400 ∧
    LIMITS.MIN_RESOLUTION ≤ getAdaptiveResolution 400 ∧
    getAdaptiveResolution 400 ≤ LIMITS.MAX_RESOLUTION := by
  exact C10_resolution_monotone_bounded 80 400 400 (by decide) (by decide)
    (by decide) (by decide) (by decide)

end IfcSite
